import Mathlib

/-!
Shallow embedding of the EduDebts service (`src/main.py`).

The service is a FastAPI application over five SQLAlchemy-mapped tables
(faculties, groups, subjects, students, debts).  We model the backing
relational store as explicit lists of rows in insertion order, one
per-table id sequence per table (PostgreSQL serial primary keys), and
each HTTP handler as a function from the store (plus its arguments) to
a response paired with the resulting store.  `HTTPException(404, ...)`
is modelled as `Err.notFound` with the handler's detail string; failures
raised by the backing store itself (NOT NULL / foreign-key constraint
violations, which FastAPI surfaces as a generic 500) are modelled as
`Err.serverError`.  Calendar dates are abstracted as naturals: no
handler computes on dates, it only stores and returns them.
-/

/-- Error outcomes observable from a handler: a 404 with its detail
string, or an unhandled backing-store failure (generic 500). -/
inductive Err where
  | notFound (detail : String)
  | serverError
deriving Repr, DecidableEq

/-- Calendar dates are opaque to every handler; we abstract them as `Nat`. -/
abbrev EDate := Nat

/-- Row of table `faculties` (`class Faculty`): `id`, `name`. -/
structure FacultyRow where
  id : Nat
  name : String
deriving Repr, DecidableEq

/-- Row of table `groups` (`class Group`): `id`, `name`, nullable
`faculty_id` referencing `faculties.id`. -/
structure GroupRow where
  id : Nat
  name : String
  faculty_id : Option Nat
deriving Repr, DecidableEq

/-- Row of table `subjects` (`class Subject`): `id`, `name`, nullable
`group_id` referencing `groups.id`. -/
structure SubjectRow where
  id : Nat
  name : String
  group_id : Option Nat
deriving Repr, DecidableEq

/-- Row of table `students` (`class Student`). -/
structure StudentRow where
  id : Nat
  first_name : String
  last_name : String
  patronymic : Option String
  record_book_number : String
  phone : Option String
  email : Option String
  group_id : Option Nat
  date_of_birth : Option EDate
deriving Repr, DecidableEq

/-- Row of table `debts` (`class Debt`): non-null `student_id` and
`subject_id` foreign keys, nullable `reason` and `date_occurred`,
non-null `status`. -/
structure DebtRow where
  id : Nat
  student_id : Nat
  subject_id : Nat
  reason : Option String
  date_occurred : Option EDate
  status : String
deriving Repr, DecidableEq

/-- Payload `FacultyCreate` (pydantic `FacultyBase`). -/
structure FacultyCreate where
  name : String
deriving Repr, DecidableEq

/-- Payload `GroupCreate` (pydantic `GroupBase`). -/
structure GroupCreate where
  name : String
  faculty_id : Option Nat
deriving Repr, DecidableEq

/-- Payload `SubjectCreate` (pydantic `SubjectBase`). -/
structure SubjectCreate where
  name : String
  group_id : Option Nat
deriving Repr, DecidableEq

/-- Payload `StudentCreate` (pydantic `StudentBase`). -/
structure StudentCreate where
  first_name : String
  last_name : String
  patronymic : Option String
  record_book_number : String
  phone : Option String
  email : Option String
  group_id : Option Nat
  date_of_birth : Option EDate
deriving Repr, DecidableEq

/-- Payload `DebtCreate` (pydantic `DebtBase`): `status` is declared
`Optional[str] = "active"`, so after parsing it is an optional string
(a client may still send an explicit JSON `null`). -/
structure DebtCreate where
  student_id : Nat
  subject_id : Nat
  reason : Option String
  date_occurred : Option EDate
  status : Option String
deriving Repr, DecidableEq

/-- Pydantic parsing of a Debt payload from the wire.  `statusField` is
`none` when the `status` key is omitted from the request body and
`some v` when it is present with value `v` (`v = none` for JSON null);
an omitted field takes the declared default `"active"`
(`DebtBase.status : Optional[str] = "active"`). -/
def parseDebtCreate (student_id subject_id : Nat) (reason : Option String)
    (date_occurred : Option EDate) (statusField : Option (Option String)) : DebtCreate :=
  { student_id := student_id
    subject_id := subject_id
    reason := reason
    date_occurred := date_occurred
    status := statusField.getD (some "active") }

/-- The backing store: the five tables in insertion order plus the next
value of each table's id sequence. -/
structure Store where
  faculties : List FacultyRow
  groups : List GroupRow
  subjects : List SubjectRow
  students : List StudentRow
  debts : List DebtRow
  nextFacultyId : Nat
  nextGroupId : Nat
  nextSubjectId : Nat
  nextStudentId : Nat
  nextDebtId : Nat
deriving Repr, DecidableEq

/-- The store of a freshly created (empty) database; id sequences start at 1. -/
def emptyStore : Store :=
  { faculties := [], groups := [], subjects := [], students := [], debts := []
    nextFacultyId := 1, nextGroupId := 1, nextSubjectId := 1
    nextStudentId := 1, nextDebtId := 1 }

/-- Well-formed store: primary keys are pairwise distinct in each table
and every issued id is below the table's id sequence, as the backing
store's primary-key columns and serial sequences guarantee. -/
def StoreWF (s : Store) : Prop :=
  (s.faculties.map (fun r => r.id)).Nodup ∧
  (s.groups.map (fun r => r.id)).Nodup ∧
  (s.subjects.map (fun r => r.id)).Nodup ∧
  (s.students.map (fun r => r.id)).Nodup ∧
  (s.debts.map (fun r => r.id)).Nodup ∧
  (∀ r ∈ s.faculties, r.id < s.nextFacultyId) ∧
  (∀ r ∈ s.groups, r.id < s.nextGroupId) ∧
  (∀ r ∈ s.subjects, r.id < s.nextSubjectId) ∧
  (∀ r ∈ s.students, r.id < s.nextStudentId) ∧
  (∀ r ∈ s.debts, r.id < s.nextDebtId)

instance (s : Store) : Decidable (StoreWF s) := by
  unfold StoreWF; infer_instance

/-- Backing-store check of the `groups.faculty_id → faculties.id`
foreign-key constraint (a NULL reference is allowed). -/
def fkFacultyOk (s : Store) (o : Option Nat) : Bool :=
  match o with
  | none => true
  | some fid => s.faculties.any (fun f => decide (f.id = fid))

/-- Backing-store check of a nullable reference to `groups.id`. -/
def fkGroupOk (s : Store) (o : Option Nat) : Bool :=
  match o with
  | none => true
  | some gid => s.groups.any (fun g => decide (g.id = gid))

/-- Backing-store check of the non-null `debts.student_id → students.id`
foreign key. -/
def fkStudentOk (s : Store) (sid : Nat) : Bool :=
  s.students.any (fun st => decide (st.id = sid))

/-- Backing-store check of the non-null `debts.subject_id → subjects.id`
foreign key. -/
def fkSubjectOk (s : Store) (subid : Nat) : Bool :=
  s.subjects.any (fun sub => decide (sub.id = subid))

/-- Handler `create_faculty` (`POST /faculties/`): insert a row with the
next id and return it. -/
def create_faculty (s : Store) (p : FacultyCreate) : Except Err FacultyRow × Store :=
  let r : FacultyRow := { id := s.nextFacultyId, name := p.name }
  (.ok r, { s with faculties := s.faculties ++ [r], nextFacultyId := s.nextFacultyId + 1 })

/-- Handler `read_faculties` (`GET /faculties/`): `select(Faculty)` with
no ORDER BY — the rows come back in table (insertion) order. -/
def read_faculties (s : Store) : List FacultyRow × Store :=
  (s.faculties, s)

/-- Handler `read_faculty` (`GET /faculties/{id}`): primary-key lookup,
404 when absent. -/
def read_faculty (s : Store) (fid : Nat) : Except Err FacultyRow × Store :=
  match s.faculties.find? (fun f => decide (f.id = fid)) with
  | none => (.error (.notFound "Faculty not found"), s)
  | some f => (.ok f, s)

/-- Handler `update_faculty` (`PUT /faculties/{id}`): 404 when absent,
otherwise every payload field is assigned onto the row (`setattr` over
`faculty.dict()`) and the updated row is returned. -/
def update_faculty (s : Store) (fid : Nat) (p : FacultyCreate) : Except Err FacultyRow × Store :=
  match s.faculties.find? (fun f => decide (f.id = fid)) with
  | none => (.error (.notFound "Faculty not found"), s)
  | some f =>
    let f2 : FacultyRow := { f with name := p.name }
    (.ok f2, { s with faculties := s.faculties.map (fun r => if r.id = fid then f2 else r) })

/-- Handler `delete_faculty` (`DELETE /faculties/{id}`): 404 when
absent; an existing row still referenced by a group makes the DELETE
violate the foreign-key constraint in the backing store (no cascade is
configured), which surfaces as a server error. -/
def delete_faculty (s : Store) (fid : Nat) : Except Err String × Store :=
  match s.faculties.find? (fun f => decide (f.id = fid)) with
  | none => (.error (.notFound "Faculty not found"), s)
  | some _ =>
    if s.groups.any (fun g => decide (g.faculty_id = some fid)) then
      (.error .serverError, s)
    else
      (.ok "Faculty deleted", { s with faculties := s.faculties.filter (fun r => !decide (r.id = fid)) })

/-- Handler `create_group` (`POST /groups/`): the INSERT fails in the
backing store when `faculty_id` references no faculty. -/
def create_group (s : Store) (p : GroupCreate) : Except Err GroupRow × Store :=
  if fkFacultyOk s p.faculty_id then
    let r : GroupRow := { id := s.nextGroupId, name := p.name, faculty_id := p.faculty_id }
    (.ok r, { s with groups := s.groups ++ [r], nextGroupId := s.nextGroupId + 1 })
  else (.error .serverError, s)

/-- Handler `read_groups` (`GET /groups/`): `select(Group)` with no
ORDER BY. -/
def read_groups (s : Store) : List GroupRow × Store :=
  (s.groups, s)

/-- Handler `read_group` (`GET /groups/{id}`). -/
def read_group (s : Store) (gid : Nat) : Except Err GroupRow × Store :=
  match s.groups.find? (fun g => decide (g.id = gid)) with
  | none => (.error (.notFound "Group not found"), s)
  | some g => (.ok g, s)

/-- Handler `update_group` (`PUT /groups/{id}`): 404 when absent; every
payload field is assigned onto the row; the commit fails when the new
`faculty_id` violates the foreign key. -/
def update_group (s : Store) (gid : Nat) (p : GroupCreate) : Except Err GroupRow × Store :=
  match s.groups.find? (fun g => decide (g.id = gid)) with
  | none => (.error (.notFound "Group not found"), s)
  | some g =>
    if fkFacultyOk s p.faculty_id then
      let g2 : GroupRow := { g with name := p.name, faculty_id := p.faculty_id }
      (.ok g2, { s with groups := s.groups.map (fun r => if r.id = gid then g2 else r) })
    else (.error .serverError, s)

/-- Handler `delete_group` (`DELETE /groups/{id}`): 404 when absent; a
row still referenced by a subject or a student fails the constraint. -/
def delete_group (s : Store) (gid : Nat) : Except Err String × Store :=
  match s.groups.find? (fun g => decide (g.id = gid)) with
  | none => (.error (.notFound "Group not found"), s)
  | some _ =>
    if s.subjects.any (fun sub => decide (sub.group_id = some gid)) ||
       s.students.any (fun st => decide (st.group_id = some gid)) then
      (.error .serverError, s)
    else
      (.ok "Group deleted", { s with groups := s.groups.filter (fun r => !decide (r.id = gid)) })

/-- Handler `create_subject` (`POST /subjects/`). -/
def create_subject (s : Store) (p : SubjectCreate) : Except Err SubjectRow × Store :=
  if fkGroupOk s p.group_id then
    let r : SubjectRow := { id := s.nextSubjectId, name := p.name, group_id := p.group_id }
    (.ok r, { s with subjects := s.subjects ++ [r], nextSubjectId := s.nextSubjectId + 1 })
  else (.error .serverError, s)

/-- Handler `read_subjects` (`GET /subjects/`): no ORDER BY. -/
def read_subjects (s : Store) : List SubjectRow × Store :=
  (s.subjects, s)

/-- Handler `read_subject` (`GET /subjects/{id}`). -/
def read_subject (s : Store) (subid : Nat) : Except Err SubjectRow × Store :=
  match s.subjects.find? (fun sub => decide (sub.id = subid)) with
  | none => (.error (.notFound "Subject not found"), s)
  | some sub => (.ok sub, s)

/-- Handler `update_subject` (`PUT /subjects/{id}`). -/
def update_subject (s : Store) (subid : Nat) (p : SubjectCreate) : Except Err SubjectRow × Store :=
  match s.subjects.find? (fun sub => decide (sub.id = subid)) with
  | none => (.error (.notFound "Subject not found"), s)
  | some sub =>
    if fkGroupOk s p.group_id then
      let sub2 : SubjectRow := { sub with name := p.name, group_id := p.group_id }
      (.ok sub2, { s with subjects := s.subjects.map (fun r => if r.id = subid then sub2 else r) })
    else (.error .serverError, s)

/-- Handler `delete_subject` (`DELETE /subjects/{id}`): a row still
referenced by a debt fails the constraint. -/
def delete_subject (s : Store) (subid : Nat) : Except Err String × Store :=
  match s.subjects.find? (fun sub => decide (sub.id = subid)) with
  | none => (.error (.notFound "Subject not found"), s)
  | some _ =>
    if s.debts.any (fun d => decide (d.subject_id = subid)) then
      (.error .serverError, s)
    else
      (.ok "Subject deleted", { s with subjects := s.subjects.filter (fun r => !decide (r.id = subid)) })

/-- Handler `create_student` (`POST /students/`). -/
def create_student (s : Store) (p : StudentCreate) : Except Err StudentRow × Store :=
  if fkGroupOk s p.group_id then
    let r : StudentRow :=
      { id := s.nextStudentId
        first_name := p.first_name
        last_name := p.last_name
        patronymic := p.patronymic
        record_book_number := p.record_book_number
        phone := p.phone
        email := p.email
        group_id := p.group_id
        date_of_birth := p.date_of_birth }
    (.ok r, { s with students := s.students ++ [r], nextStudentId := s.nextStudentId + 1 })
  else (.error .serverError, s)

/-- Handler `read_students` (`GET /students/`): no ORDER BY. -/
def read_students (s : Store) : List StudentRow × Store :=
  (s.students, s)

/-- Handler `read_student` (`GET /students/{id}`). -/
def read_student (s : Store) (stid : Nat) : Except Err StudentRow × Store :=
  match s.students.find? (fun st => decide (st.id = stid)) with
  | none => (.error (.notFound "Student not found"), s)
  | some st => (.ok st, s)

/-- Handler `update_student` (`PUT /students/{id}`). -/
def update_student (s : Store) (stid : Nat) (p : StudentCreate) : Except Err StudentRow × Store :=
  match s.students.find? (fun st => decide (st.id = stid)) with
  | none => (.error (.notFound "Student not found"), s)
  | some st =>
    if fkGroupOk s p.group_id then
      let st2 : StudentRow :=
        { st with
          first_name := p.first_name
          last_name := p.last_name
          patronymic := p.patronymic
          record_book_number := p.record_book_number
          phone := p.phone
          email := p.email
          group_id := p.group_id
          date_of_birth := p.date_of_birth }
      (.ok st2, { s with students := s.students.map (fun r => if r.id = stid then st2 else r) })
    else (.error .serverError, s)

/-- Handler `delete_student` (`DELETE /students/{id}`): a row still
referenced by a debt fails the constraint. -/
def delete_student (s : Store) (stid : Nat) : Except Err String × Store :=
  match s.students.find? (fun st => decide (st.id = stid)) with
  | none => (.error (.notFound "Student not found"), s)
  | some _ =>
    if s.debts.any (fun d => decide (d.student_id = stid)) then
      (.error .serverError, s)
    else
      (.ok "Student deleted", { s with students := s.students.filter (fun r => !decide (r.id = stid)) })

/-- Handler `create_debt` (`POST /debts/`): the INSERT fails in the
backing store when `student_id` or `subject_id` reference no row, or
when the parsed payload carries `status = null` (the column is
NOT NULL and the explicit value bypasses the column default). -/
def create_debt (s : Store) (p : DebtCreate) : Except Err DebtRow × Store :=
  match p.status with
  | none => (.error .serverError, s)
  | some stv =>
    if fkStudentOk s p.student_id && fkSubjectOk s p.subject_id then
      let r : DebtRow :=
        { id := s.nextDebtId
          student_id := p.student_id
          subject_id := p.subject_id
          reason := p.reason
          date_occurred := p.date_occurred
          status := stv }
      (.ok r, { s with debts := s.debts ++ [r], nextDebtId := s.nextDebtId + 1 })
    else (.error .serverError, s)

/-- Handler `read_debts` (`GET /debts/`): `select(Debt)` with no
ORDER BY. -/
def read_debts (s : Store) : List DebtRow × Store :=
  (s.debts, s)

/-- Handler `read_debt` (`GET /debts/{id}`). -/
def read_debt (s : Store) (did : Nat) : Except Err DebtRow × Store :=
  match s.debts.find? (fun d => decide (d.id = did)) with
  | none => (.error (.notFound "Debt not found"), s)
  | some d => (.ok d, s)

/-- Handler `update_debt` (`PUT /debts/{id}`): 404 when absent; every
payload field is assigned onto the row; the commit fails on a null
`status` or a dangling foreign key. -/
def update_debt (s : Store) (did : Nat) (p : DebtCreate) : Except Err DebtRow × Store :=
  match s.debts.find? (fun d => decide (d.id = did)) with
  | none => (.error (.notFound "Debt not found"), s)
  | some d =>
    match p.status with
    | none => (.error .serverError, s)
    | some stv =>
      if fkStudentOk s p.student_id && fkSubjectOk s p.subject_id then
        let d2 : DebtRow :=
          { d with
            student_id := p.student_id
            subject_id := p.subject_id
            reason := p.reason
            date_occurred := p.date_occurred
            status := stv }
        (.ok d2, { s with debts := s.debts.map (fun r => if r.id = did then d2 else r) })
      else (.error .serverError, s)

/-- Handler `settle_debt` (`PUT /debts/{id}/settle`): 404 when absent,
otherwise set `status` to `"settled"` and report success. -/
def settle_debt (s : Store) (did : Nat) : Except Err String × Store :=
  match s.debts.find? (fun d => decide (d.id = did)) with
  | none => (.error (.notFound "Debt not found"), s)
  | some _ =>
    (.ok "Debt marked as settled",
     { s with debts := s.debts.map (fun r => if r.id = did then { r with status := "settled" } else r) })

/-- Handler `delete_debt` (`DELETE /debts/{id}`). -/
def delete_debt (s : Store) (did : Nat) : Except Err String × Store :=
  match s.debts.find? (fun d => decide (d.id = did)) with
  | none => (.error (.notFound "Debt not found"), s)
  | some _ =>
    (.ok "Debt deleted", { s with debts := s.debts.filter (fun r => !decide (r.id = did)) })

/-- One entry of the `debts_by_faculty` report. -/
structure FacultyReportEntry where
  faculty : String
  debt_count : Nat
deriving Repr, DecidableEq

/-- One entry of the `debts_by_group` report. -/
structure GroupReportEntry where
  student : String
  debt_count : Nat
deriving Repr, DecidableEq

/-- One entry of the `student_debts` report. -/
structure StudentDebtEntry where
  subject : String
  reason : Option String
  date_occurred : Option EDate
  status : String
deriving Repr, DecidableEq

/-- Fuel-driven worker for `dedupFirst`; the fuel only needs to cover
the length of the list, and is threaded so that the recursion is
structural (hence kernel-reducible). -/
def dedupFirstAux {α : Type} [DecidableEq α] : Nat → List α → List α
  | _, [] => []
  | 0, _ :: _ => []
  | n + 1, x :: xs => x :: dedupFirstAux n (xs.filter (fun y => !decide (y = x)))

/-- Distinct elements of a list, keeping first occurrences in order —
the GROUP BY keys of an aggregate, in the deterministic order this
model assigns to a query with no ORDER BY. -/
def dedupFirst {α : Type} [DecidableEq α] (l : List α) : List α :=
  dedupFirstAux l.length l

/-- Value of `count(debts.id)` in the `debts_by_faculty` query for one
GROUP BY key `n`: the number of rows of the outer-join chain
faculties ⟕ groups ⟕ students ⟕ debts whose faculty name is `n` and
whose debt id is non-NULL, i.e. the number of fully joined
(faculty, group, student, debt) tuples with faculty name `n`. -/
def facultyTupleCount (s : Store) (n : String) : Nat :=
  ((s.faculties.filter (fun f => decide (f.name = n))).flatMap (fun f =>
    (s.groups.filter (fun g => decide (g.faculty_id = some f.id))).flatMap (fun g =>
      (s.students.filter (fun st => decide (st.group_id = some g.id))).flatMap (fun st =>
        s.debts.filter (fun d => decide (d.student_id = st.id)))))).length

/-- Handler `debts_by_faculty` (`GET /reports/debts_by_faculty`):
SELECT faculties.name, count(debts.id) over the LEFT OUTER JOIN chain
faculties → groups → students → debts, GROUP BY faculties.name, with
no WHERE clause and no ORDER BY. -/
def debts_by_faculty (s : Store) : List FacultyReportEntry × Store :=
  ((dedupFirst (s.faculties.map (fun f => f.name))).map
    (fun n => { faculty := n, debt_count := facultyTupleCount s n }), s)

/-- Handler `debts_by_group` (`GET /reports/debts_by_group/{group_id}`):
SELECT students.last_name, students.first_name, count(debts.id) from
students ⟕ debts, WHERE students.group_id = group_id, GROUP BY
(last_name, first_name), no ORDER BY; the response formats each key as
"last first". -/
def debts_by_group (s : Store) (gid : Nat) : List GroupReportEntry × Store :=
  let sts := s.students.filter (fun st => decide (st.group_id = some gid))
  ((dedupFirst (sts.map (fun st => (st.last_name, st.first_name)))).map
    (fun k =>
      { student := k.1 ++ " " ++ k.2
        debt_count :=
          ((sts.filter (fun st => decide (st.last_name = k.1) && decide (st.first_name = k.2))).flatMap
            (fun st => s.debts.filter (fun d => decide (d.student_id = st.id)))).length }), s)

/-- Handler `student_debts` (`GET /reports/student_debts/{student_id}`):
SELECT subjects.name, debts.reason, debts.date_occurred, debts.status
from subjects INNER JOIN debts ON debts.subject_id = subjects.id,
WHERE debts.student_id = student_id, no ORDER BY. -/
def student_debts (s : Store) (sid : Nat) : List StudentDebtEntry × Store :=
  (s.subjects.flatMap (fun sub =>
    (s.debts.filter (fun d => decide (d.subject_id = sub.id) && decide (d.student_id = sid))).map
      (fun d =>
        { subject := sub.name
          reason := d.reason
          date_occurred := d.date_occurred
          status := d.status })), s)

/-- Primary-key lookup of a student's `group_id`. -/
def studentGroupId? (s : Store) (sid : Nat) : Option Nat :=
  (s.students.find? (fun st => decide (st.id = sid))).bind (fun st => st.group_id)

/-- Primary-key lookup of a group's `faculty_id`. -/
def groupFacultyId? (s : Store) (gid : Nat) : Option Nat :=
  (s.groups.find? (fun g => decide (g.id = gid))).bind (fun g => g.faculty_id)

/-- Primary-key lookup of a faculty's name. -/
def facultyName? (s : Store) (fid : Nat) : Option String :=
  (s.faculties.find? (fun f => decide (f.id = fid))).map (fun f => f.name)

/-- The faculty id a student belongs to, through their group, when the
whole chain student → group → faculty resolves. -/
def studentFacultyId? (s : Store) (sid : Nat) : Option Nat :=
  (studentGroupId? s sid).bind (fun gid => groupFacultyId? s gid)

/-- The name of the faculty a student belongs to, through their group,
when the whole chain student → group → faculty resolves.  A debt `d`
is counted under faculty name `n` by the `debts_by_faculty` report
exactly when `studentFacultyName? s d.student_id = some n` (proved
below for well-formed stores). -/
def studentFacultyName? (s : Store) (sid : Nat) : Option String :=
  (studentFacultyId? s sid).bind (fun fid => facultyName? s fid)

/-- Sample store: one faculty, group, subject and student plus one
already-settled debt, together with a second and third faculty sharing
no debts — the faculties are named so that the report output is not
sorted and a settled debt is visible in the counts. -/
def storeSettled : Store :=
  { faculties := [{ id := 1, name := "A" }, { id := 2, name := "F" }, { id := 3, name := "F" }]
    groups := [{ id := 1, name := "G", faculty_id := some 2 }]
    subjects := [{ id := 1, name := "S", group_id := some 1 }]
    students := [{ id := 1, first_name := "Ivan", last_name := "Petrov", patronymic := none,
                   record_book_number := "rb1", phone := none, email := none,
                   group_id := some 1, date_of_birth := none }]
    debts := [{ id := 1, student_id := 1, subject_id := 1, reason := none,
                date_occurred := none, status := "settled" }]
    nextFacultyId := 4, nextGroupId := 2, nextSubjectId := 2
    nextStudentId := 2, nextDebtId := 2 }

/-- Sample store with two faculties created in descending name order. -/
def storeBA : Store :=
  { faculties := [{ id := 1, name := "B" }, { id := 2, name := "A" }]
    groups := [], subjects := [], students := [], debts := []
    nextFacultyId := 3, nextGroupId := 1, nextSubjectId := 1
    nextStudentId := 1, nextDebtId := 1 }

/-- Sample store: one faculty, one group, one subject, one student and
one active debt, used to instantiate universally quantified theorems. -/
def storeSeed : Store :=
  { faculties := [{ id := 1, name := "F" }]
    groups := [{ id := 1, name := "G", faculty_id := some 1 }]
    subjects := [{ id := 1, name := "S", group_id := some 1 }]
    students := [{ id := 1, first_name := "Ivan", last_name := "Petrov", patronymic := none,
                   record_book_number := "rb1", phone := none, email := none,
                   group_id := some 1, date_of_birth := none }]
    debts := [{ id := 1, student_id := 1, subject_id := 1, reason := none,
                date_occurred := none, status := "active" }]
    nextFacultyId := 2, nextGroupId := 2, nextSubjectId := 2
    nextStudentId := 2, nextDebtId := 2 }

/-- Sum of a constant-zero map is zero. -/
theorem sum_map_zero_nat {β : Type} (l : List β) : (l.map (fun _ => (0 : Nat))).sum = 0 := by
  induction l with
  | nil => rfl
  | cons x xs ih => simpa using ih

/-- Sums of natural-valued maps distribute over pointwise addition. -/
theorem sum_map_add_nat {β : Type} (l : List β) (f g : β → Nat) :
    (l.map (fun x => f x + g x)).sum = (l.map f).sum + (l.map g).sum := by
  induction l with
  | nil => rfl
  | cons x xs ih => simp [ih]; omega

/-- Summing an indicator over a list counts the satisfying elements. -/
theorem sum_map_ite_nat {β : Type} (l : List β) (p : β → Prop) [DecidablePred p] :
    (l.map (fun x => if p x then 1 else 0)).sum = l.countP (fun x => decide (p x)) := by
  induction l with
  | nil => rfl
  | cons x xs ih =>
    by_cases hx : p x <;> simp [List.countP_cons, hx, ih] <;> omega

/-- Swap lemma: the length of a flatMap of filters of a fixed list
equals the sum, over that list, of how many generators accept each
element. -/
theorem length_flatMap_filter {α β : Type} (xs : List α) (ds : List β) (p : α → β → Bool) :
    (xs.flatMap (fun x => ds.filter (fun d => p x d))).length
      = (ds.map (fun d => xs.countP (fun x => p x d))).sum := by
  induction xs with
  | nil => simp [sum_map_zero_nat]
  | cons x xs ih =>
    have hl : ((x :: xs).flatMap (fun x => ds.filter (fun d => p x d))).length
        = (ds.filter (fun d => p x d)).length
          + (xs.flatMap (fun x => ds.filter (fun d => p x d))).length := by
      simp
    rw [hl, ih, ← List.countP_eq_length_filter]
    have hr : (ds.map (fun d => (x :: xs).countP fun x => p x d)).sum
        = (ds.map (fun d => (if p x d then 1 else 0) + xs.countP (fun x => p x d))).sum := by
      apply congrArg
      apply List.map_congr_left
      intro d _
      rw [List.countP_cons]
      omega
    rw [hr, sum_map_add_nat]
    have hcnt : (ds.map (fun d => if p x d then 1 else 0)).sum = ds.countP (fun d => p x d) := by
      simpa using sum_map_ite_nat ds (fun d => p x d = true)
    omega

/-- A key that no row carries makes the keyed find? fail. -/
theorem find?_key_none {ρ : Type} {l : List ρ} {key : ρ → Nat} {k : Nat}
    (h : ∀ r ∈ l, key r ≠ k) : l.find? (fun r => decide (key r = k)) = none := by
  exact List.find?_eq_none.mpr (fun x hx => by simpa using h x hx)

/-- When the keyed find? fails, no keyed-and-qualified row is counted. -/
theorem countP_key_none {ρ : Type} {l : List ρ} (key : ρ → Nat) {k : Nat} (q : ρ → Bool)
    (h : l.find? (fun r => decide (key r = k)) = none) :
    l.countP (fun r => decide (key r = k) && q r) = 0 := by
  refine List.countP_eq_zero.mpr (fun r hr => ?_)
  have := List.find?_eq_none.mp h r hr
  simp at this
  simp [this]

/-- With pairwise-distinct keys, counting the rows with a given key that
also satisfy `q` tests `q` on the unique row found by find?. -/
theorem countP_key_some {ρ : Type} {l : List ρ} (key : ρ → Nat) {k : Nat} (q : ρ → Bool) {a : ρ}
    (hnd : (l.map key).Nodup) (h : l.find? (fun r => decide (key r = k)) = some a) :
    l.countP (fun r => decide (key r = k) && q r) = if q a then 1 else 0 := by
  induction l with
  | nil => simp at h
  | cons x xs ih =>
    rw [List.map_cons, List.nodup_cons] at hnd
    rw [List.countP_cons]
    by_cases hx : key x = k
    · rw [List.find?_cons_of_pos _ (by simpa using hx)] at h
      have hax : a = x := by simpa using h.symm
      subst hax
      have hz : xs.countP (fun r => decide (key r = k) && q r) = 0 := by
        refine List.countP_eq_zero.mpr (fun r hr => ?_)
        have : key r ≠ k := by
          intro hk
          exact hnd.1 (by rw [← hx] at hk; exact hk ▸ List.mem_map_of_mem key hr)
        simp [this]
      by_cases hq : q a <;> simp [hz, hx, hq]
    · rw [List.find?_cons_of_neg _ (by simpa using hx)] at h
      rw [ih hnd.2 h]
      simp [hx]

/-- Counting keyed rows inside a filtered table, with distinct keys:
the count is one exactly when find? produces a row passing the filter. -/
theorem countP_keyfilter {ρ : Type} (l : List ρ) (key : ρ → Nat)
    (hnd : (l.map key).Nodup) (k : Nat) (q : ρ → Bool) :
    (l.filter q).countP (fun r => decide (key r = k)) =
      match l.find? (fun r => decide (key r = k)) with
      | none => 0
      | some a => if q a then 1 else 0 := by
  rw [List.countP_filter]
  cases h : l.find? (fun r => decide (key r = k)) with
  | none => exact countP_key_none key q h
  | some a => exact countP_key_some key q hnd h

/-- Appending a row with a fresh key makes it the row find? locates. -/
theorem find?_append_fresh {ρ : Type} (l : List ρ) (key : ρ → Nat) (k : Nat) (a : ρ)
    (h : ∀ r ∈ l, key r < k) (ha : key a = k) :
    (l ++ [a]).find? (fun r => decide (key r = k)) = some a := by
  rw [List.find?_append]
  have h1 : l.find? (fun r => decide (key r = k)) = none :=
    find?_key_none (fun r hr => Nat.ne_of_lt (h r hr))
  rw [h1]
  simp [List.find?, ha]

/-- Mapping a key-preserving modification over the rows with a given
key relocates find? to the modified row. -/
theorem find?_map_modify {ρ : Type} {l : List ρ} (key : ρ → Nat) (k : Nat) (m : ρ → ρ)
    (hm : ∀ r, key r = k → key (m r) = k) {d : ρ}
    (h : l.find? (fun r => decide (key r = k)) = some d) :
    (l.map (fun r => if key r = k then m r else r)).find? (fun r => decide (key r = k))
      = some (m d) := by
  induction l with
  | nil => simp at h
  | cons x xs ih =>
    by_cases hx : key x = k
    · rw [List.find?_cons_of_pos _ (by simpa using hx)] at h
      have hdx : d = x := by simpa using h.symm
      subst hdx
      rw [List.map_cons, if_pos hx]
      exact List.find?_cons_of_pos _ (by simpa using hm d hx)
    · rw [List.find?_cons_of_neg _ (by simpa using hx)] at h
      rw [List.map_cons, if_neg hx]
      rw [List.find?_cons_of_neg _ (by simpa using hx)]
      exact ih h

/-- The worker is insensitive to the exact amount of fuel, as long as
the fuel covers the list. -/
theorem dedupFirstAux_fuel {α : Type} [DecidableEq α] :
    ∀ (n m : Nat) (l : List α), l.length ≤ n → l.length ≤ m →
      dedupFirstAux n l = dedupFirstAux m l := by
  intro n
  induction n with
  | zero =>
    intro m l hn _
    cases l with
    | nil => cases m <;> rfl
    | cons x xs => simp at hn
  | succ n ih =>
    intro m l hn hm
    cases l with
    | nil => cases m <;> rfl
    | cons x xs =>
      cases m with
      | zero => simp at hm
      | succ m =>
        simp only [dedupFirstAux]
        have hfn : (xs.filter (fun y => !decide (y = x))).length ≤ n :=
          le_trans (List.length_filter_le _ _) (by simpa using hn)
        have hfm : (xs.filter (fun y => !decide (y = x))).length ≤ m :=
          le_trans (List.length_filter_le _ _) (by simpa using hm)
        rw [ih m _ hfn hfm]

/-- Unfolding equation of dedupFirst on a cons cell. -/
theorem dedupFirst_cons {α : Type} [DecidableEq α] (x : α) (xs : List α) :
    dedupFirst (x :: xs) = x :: dedupFirst (xs.filter (fun y => !decide (y = x))) := by
  unfold dedupFirst
  simp only [List.length_cons, dedupFirstAux]
  rw [dedupFirstAux_fuel xs.length (xs.filter (fun y => !decide (y = x))).length _
    (List.length_filter_le _ _) le_rfl]

/-- Membership is preserved by dedupFirst. -/
theorem mem_dedupFirst {α : Type} [DecidableEq α] {l : List α} {x : α} :
    x ∈ dedupFirst l ↔ x ∈ l := by
  have main : ∀ (n : Nat) (l : List α), l.length ≤ n → (x ∈ dedupFirst l ↔ x ∈ l) := by
    intro n
    induction n with
    | zero =>
      intro l hl
      cases l with
      | nil => simp [dedupFirst, dedupFirstAux]
      | cons y ys => simp at hl
    | succ n ih =>
      intro l hl
      cases l with
      | nil => simp [dedupFirst, dedupFirstAux]
      | cons y ys =>
        rw [dedupFirst_cons]
        have hf : (ys.filter (fun z => !decide (z = y))).length ≤ n :=
          le_trans (List.length_filter_le _ _) (by simpa using hl)
        by_cases hxy : x = y
        · simp [hxy]
        · simp only [List.mem_cons, ih _ hf, List.mem_filter]
          constructor
          · rintro (h | ⟨h, _⟩)
            · exact Or.inl h
            · exact Or.inr h
          · rintro (h | h)
            · exact Or.inl h
            · exact Or.inr ⟨h, by simpa using hxy⟩
  exact main l.length l le_rfl

/-- dedupFirst produces pairwise-distinct elements. -/
theorem nodup_dedupFirst {α : Type} [DecidableEq α] (l : List α) :
    (dedupFirst l).Nodup := by
  have main : ∀ (n : Nat) (l : List α), l.length ≤ n → (dedupFirst l).Nodup := by
    intro n
    induction n with
    | zero =>
      intro l hl
      cases l with
      | nil => simp [dedupFirst, dedupFirstAux]
      | cons y ys => simp at hl
    | succ n ih =>
      intro l hl
      cases l with
      | nil => simp [dedupFirst, dedupFirstAux]
      | cons y ys =>
        rw [dedupFirst_cons, List.nodup_cons]
        have hf : (ys.filter (fun z => !decide (z = y))).length ≤ n :=
          le_trans (List.length_filter_le _ _) (by simpa using hl)
        refine ⟨fun hy => ?_, ih _ hf⟩
        have := mem_dedupFirst.mp hy
        rw [List.mem_filter] at this
        simpa using this.2
  exact main l.length l le_rfl

/-- Student level of the debts_by_faculty join: among the students of
one group, the students with a given id number one exactly when the id
resolves to a student of that group. -/
theorem countP_students_level (s : Store) (hndSt : (s.students.map (fun r => r.id)).Nodup)
    (sid gid2 : Nat) :
    (s.students.filter (fun st => decide (st.group_id = some gid2))).countP
        (fun st => decide (sid = st.id))
      = if studentGroupId? s sid = some gid2 then 1 else 0 := by
  have hflip : (s.students.filter (fun st => decide (st.group_id = some gid2))).countP
      (fun st => decide (sid = st.id))
      = (s.students.filter (fun st => decide (st.group_id = some gid2))).countP
      (fun st => decide (st.id = sid)) := by
    apply List.countP_congr
    intro st _
    simp [eq_comm]
  rw [hflip, countP_keyfilter s.students (fun r => r.id) hndSt sid]
  unfold studentGroupId?
  cases h : s.students.find? (fun st => decide (st.id = sid)) with
  | none => simp
  | some st₀ =>
    simp only [Option.some_bind]
    by_cases hg : st₀.group_id = some gid2 <;> simp [hg]

/-- Folding a unit count through an optional row and a nullable field:
the indicator of the composed lookup. -/
theorem match_count_bind {ρ : Type} (o : Option ρ) (f : ρ → Option Nat) (k : Nat) :
    (match o with
     | none => 0
     | some a => if decide (f a = some k) = true then 1 else 0)
    = if o.bind f = some k then 1 else 0 := by
  cases o with
  | none => simp
  | some a =>
    simp only [Option.some_bind]
    by_cases h : f a = some k <;> simp [h]

/-- Folding a unit count through an optional row and a projection:
the indicator of the mapped lookup. -/
theorem match_count_map {ρ : Type} (o : Option ρ) (f : ρ → String) (k : String) :
    (match o with
     | none => 0
     | some a => if decide (f a = k) = true then 1 else 0)
    = if o.map f = some k then 1 else 0 := by
  cases o with
  | none => simp
  | some a =>
    simp only [Option.map_some']
    by_cases h : f a = k <;> simp [h]

/-- Group level of the debts_by_faculty join: among the groups of one
faculty, the join rows reaching a given student number one exactly when
the student's group resolves to a group of that faculty. -/
theorem countP_groups_level (s : Store)
    (hndG : (s.groups.map (fun r => r.id)).Nodup)
    (hndSt : (s.students.map (fun r => r.id)).Nodup)
    (sid fid : Nat) :
    ((s.groups.filter (fun g => decide (g.faculty_id = some fid))).flatMap (fun g =>
        s.students.filter (fun st => decide (st.group_id = some g.id)))).countP
        (fun st => decide (sid = st.id))
      = if studentFacultyId? s sid = some fid then 1 else 0 := by
  rw [List.countP_flatMap]
  unfold studentFacultyId?
  have hterm : ∀ g ∈ s.groups.filter (fun g => decide (g.faculty_id = some fid)),
      ((List.countP (fun st => decide (sid = st.id))) ∘
        (fun g => s.students.filter (fun st => decide (st.group_id = some g.id)))) g
        = if studentGroupId? s sid = some g.id then 1 else 0 := by
    intro g _
    exact countP_students_level s hndSt sid g.id
  rw [List.map_congr_left hterm]
  cases hgid : studentGroupId? s sid with
  | none =>
    have hz : (s.groups.filter (fun g => decide (g.faculty_id = some fid))).map
        (fun g => if studentGroupId? s sid = some g.id then 1 else 0)
        = (s.groups.filter (fun g => decide (g.faculty_id = some fid))).map (fun _ => 0) := by
      apply List.map_congr_left
      intro g _
      simp [hgid]
    simp [hz, sum_map_zero_nat, hgid]
  | some gid =>
    have heq : (s.groups.filter (fun g => decide (g.faculty_id = some fid))).map
        (fun g => if some gid = some g.id then 1 else 0)
        = (s.groups.filter (fun g => decide (g.faculty_id = some fid))).map
        (fun g => if g.id = gid then 1 else 0) := by
      apply List.map_congr_left
      intro g _
      by_cases h : g.id = gid
      · simp [h]
      · simp [h]
        omega
    have hsum : ((s.groups.filter (fun g => decide (g.faculty_id = some fid))).map
        (fun g => if g.id = gid then 1 else 0)).sum
        = (s.groups.filter (fun g => decide (g.faculty_id = some fid))).countP
            (fun g => decide (g.id = gid)) := by
      simpa using sum_map_ite_nat (s.groups.filter (fun g => decide (g.faculty_id = some fid)))
        (fun g => g.id = gid)
    rw [heq, hsum, countP_keyfilter s.groups (fun r => r.id) hndG gid]
    simp only [Option.some_bind]
    unfold groupFacultyId?
    exact match_count_bind (s.groups.find? (fun g => decide (g.id = gid)))
      (fun g => g.faculty_id) fid

/-- Faculty level of the debts_by_faculty join: among the faculties with
a given name, the join rows reaching a given student number one exactly
when the student's faculty chain resolves to that name. -/
theorem countP_faculties_level (s : Store)
    (hndF : (s.faculties.map (fun r => r.id)).Nodup)
    (hndG : (s.groups.map (fun r => r.id)).Nodup)
    (hndSt : (s.students.map (fun r => r.id)).Nodup)
    (sid : Nat) (n : String) :
    ((s.faculties.filter (fun f => decide (f.name = n))).flatMap (fun f =>
        (s.groups.filter (fun g => decide (g.faculty_id = some f.id))).flatMap (fun g =>
          s.students.filter (fun st => decide (st.group_id = some g.id))))).countP
        (fun st => decide (sid = st.id))
      = if studentFacultyName? s sid = some n then 1 else 0 := by
  rw [List.countP_flatMap]
  unfold studentFacultyName?
  have hterm : ∀ f ∈ s.faculties.filter (fun f => decide (f.name = n)),
      ((List.countP (fun st => decide (sid = st.id))) ∘
        (fun f => (s.groups.filter (fun g => decide (g.faculty_id = some f.id))).flatMap (fun g =>
          s.students.filter (fun st => decide (st.group_id = some g.id))))) f
        = if studentFacultyId? s sid = some f.id then 1 else 0 := by
    intro f _
    exact countP_groups_level s hndG hndSt sid f.id
  rw [List.map_congr_left hterm]
  cases hfid : studentFacultyId? s sid with
  | none =>
    have hz : (s.faculties.filter (fun f => decide (f.name = n))).map
        (fun f => if studentFacultyId? s sid = some f.id then 1 else 0)
        = (s.faculties.filter (fun f => decide (f.name = n))).map (fun _ => 0) := by
      apply List.map_congr_left
      intro f _
      simp [hfid]
    simp [hz, sum_map_zero_nat, hfid]
  | some fid =>
    have heq : (s.faculties.filter (fun f => decide (f.name = n))).map
        (fun f => if some fid = some f.id then 1 else 0)
        = (s.faculties.filter (fun f => decide (f.name = n))).map
        (fun f => if f.id = fid then 1 else 0) := by
      apply List.map_congr_left
      intro f _
      by_cases h : f.id = fid
      · simp [h]
      · simp [h]
        omega
    have hsum : ((s.faculties.filter (fun f => decide (f.name = n))).map
        (fun f => if f.id = fid then 1 else 0)).sum
        = (s.faculties.filter (fun f => decide (f.name = n))).countP
            (fun f => decide (f.id = fid)) := by
      simpa using sum_map_ite_nat (s.faculties.filter (fun f => decide (f.name = n)))
        (fun f => f.id = fid)
    rw [heq, hsum, countP_keyfilter s.faculties (fun r => r.id) hndF fid]
    simp only [Option.some_bind]
    unfold facultyName?
    exact match_count_map (s.faculties.find? (fun f => decide (f.id = fid)))
      (fun f => f.name) n

/-- Swap lemma specialized to the innermost join of debts_by_faculty:
joining each reached student against the debts table and measuring the
result counts, per debt, the students reaching it. -/
theorem length_flatMap_filter_debts (xs : List StudentRow) (ds : List DebtRow) :
    (xs.flatMap (fun st => ds.filter (fun d => decide (d.student_id = st.id)))).length
      = (ds.map (fun d => xs.countP (fun st => decide (d.student_id = st.id)))).sum :=
  length_flatMap_filter xs ds (fun st d => decide (d.student_id = st.id))

/-- The GROUP BY count of the debts_by_faculty query, for a well-formed
store, counts exactly the debts whose student → group → faculty chain
resolves to a faculty with the given name. -/
theorem facultyTupleCount_eq (s : Store) (hWF : StoreWF s) (n : String) :
    facultyTupleCount s n
      = s.debts.countP (fun d => decide (studentFacultyName? s d.student_id = some n)) := by
  obtain ⟨hndF, hndG, _, hndSt, _, _⟩ := hWF
  unfold facultyTupleCount
  simp only [← List.flatMap_assoc]
  rw [length_flatMap_filter_debts _ s.debts]
  have hterm : ∀ d ∈ s.debts,
      (((s.faculties.filter (fun f => decide (f.name = n))).flatMap (fun f =>
        s.groups.filter (fun g => decide (g.faculty_id = some f.id)))).flatMap (fun g =>
          s.students.filter (fun st => decide (st.group_id = some g.id)))).countP
        (fun st => decide (d.student_id = st.id))
        = if studentFacultyName? s d.student_id = some n then 1 else 0 := by
    intro d _
    rw [List.flatMap_assoc]
    exact countP_faculties_level s hndF hndG hndSt d.student_id n
  rw [List.map_congr_left hterm]
  simpa using sum_map_ite_nat s.debts (fun d => studentFacultyName? s d.student_id = some n)

/-- A successful primary-key lookup makes `read_faculty` return the row. -/
theorem read_faculty_found (s : Store) (fid : Nat) (f : FacultyRow)
    (h : s.faculties.find? (fun r => decide (r.id = fid)) = some f) :
    read_faculty s fid = (.ok f, s) := by
  unfold read_faculty
  rw [h]

/-- A successful primary-key lookup makes `read_group` return the row. -/
theorem read_group_found (s : Store) (gid : Nat) (g : GroupRow)
    (h : s.groups.find? (fun r => decide (r.id = gid)) = some g) :
    read_group s gid = (.ok g, s) := by
  unfold read_group
  rw [h]

/-- A successful primary-key lookup makes `read_subject` return the row. -/
theorem read_subject_found (s : Store) (subid : Nat) (sub : SubjectRow)
    (h : s.subjects.find? (fun r => decide (r.id = subid)) = some sub) :
    read_subject s subid = (.ok sub, s) := by
  unfold read_subject
  rw [h]

/-- A successful primary-key lookup makes `read_student` return the row. -/
theorem read_student_found (s : Store) (stid : Nat) (st : StudentRow)
    (h : s.students.find? (fun r => decide (r.id = stid)) = some st) :
    read_student s stid = (.ok st, s) := by
  unfold read_student
  rw [h]

/-- A successful primary-key lookup makes `read_debt` return the row. -/
theorem read_debt_found (s : Store) (did : Nat) (d : DebtRow)
    (h : s.debts.find? (fun r => decide (r.id = did)) = some d) :
    read_debt s did = (.ok d, s) := by
  unfold read_debt
  rw [h]

/-- Claim C2, counterexample: in the store whose faculties were created
in the order "B", "A", the Faculty List endpoint returns the names in
that insertion order, which is not ascending name order — the claim
that every List is sorted by its documented key is false of the code,
whose SELECTs carry no ORDER BY. -/
theorem list_order_counterexample :
    (read_faculties storeBA).1.map (fun f => f.name) = ["B", "A"] ∧
    ¬ ((read_faculties storeBA).1.map (fun f => f.name)).Sorted (fun a b : String => a ≤ b) := by
  constructor
  · rfl
  · intro h
    have h2 : (["B", "A"] : List String).Sorted (fun a b : String => a ≤ b) := h
    have h1 : ("B" : String) ≤ "A" := (List.sorted_cons.mp h2).1 "A" (by simp)
    rw [String.le_iff_toList_le] at h1
    revert h1
    decide

/-- Claim C2 (amended): no List endpoint applies any ordering — each of
the five returns every row of its table exactly in the backing table's
insertion order (the queries are plain SELECTs without ORDER BY). -/
theorem list_returns_table_order (s : Store) :
    (read_faculties s).1 = s.faculties ∧ (read_groups s).1 = s.groups ∧
    (read_subjects s).1 = s.subjects ∧ (read_students s).1 = s.students ∧
    (read_debts s).1 = s.debts :=
  ⟨rfl, rfl, rfl, rfl, rfl⟩

/-- Claim C8: none of the report endpoints changes any table or id
sequence — the store they return is exactly the store they received,
for every store and every requested identifier. -/
theorem reports_no_side_effects (s : Store) (gid sid : Nat) :
    (debts_by_faculty s).2 = s ∧ (debts_by_group s gid).2 = s ∧
    (student_debts s sid).2 = s :=
  ⟨rfl, rfl, rfl⟩

/-- Claim C3, counterexample: in `storeSettled` there are three
faculties but the report has two entries (same-named faculties merge,
because the query groups by name), the only debt is settled yet it is
counted (the query has no status filter), and the counts come out in
ascending, not descending, order (the query has no ORDER BY). -/
theorem debts_by_faculty_counterexample :
    (debts_by_faculty storeSettled).1
        = [{ faculty := "A", debt_count := 0 }, { faculty := "F", debt_count := 1 }] ∧
    storeSettled.faculties.length = 3 ∧
    storeSettled.debts.countP (fun d => decide (d.status = "active")) = 0 ∧
    ¬ ((debts_by_faculty storeSettled).1.map (fun e => e.debt_count)).Sorted
        (fun a b : Nat => b ≤ a) := by
  refine ⟨by decide, by decide, by decide, by decide⟩

/-- Claim C3 (amended): for a well-formed store the debts-by-faculty
report has one entry per distinct faculty name, in first-occurrence
order of the faculty table; every faculty's name appears, including
faculties with no matching debts, whose count is zero; and each entry's
count equals the number of debts of ANY status whose student belongs,
through their group, to a faculty with that name.  No status filter and
no ordering are applied. -/
theorem debts_by_faculty_characterization (s : Store) (hWF : StoreWF s) :
    (debts_by_faculty s).1.map (fun e => e.faculty)
        = dedupFirst (s.faculties.map (fun f => f.name)) ∧
    ((debts_by_faculty s).1.map (fun e => e.faculty)).Nodup ∧
    (∀ fac ∈ s.faculties, ∃ e ∈ (debts_by_faculty s).1, e.faculty = fac.name) ∧
    (∀ e ∈ (debts_by_faculty s).1,
      e.debt_count = s.debts.countP
        (fun d => decide (studentFacultyName? s d.student_id = some e.faculty))) := by
  have hfst : (debts_by_faculty s).1.map (fun e => e.faculty)
      = dedupFirst (s.faculties.map (fun f => f.name)) := by
    unfold debts_by_faculty
    rw [List.map_map]
    exact List.map_id' _
  refine ⟨hfst, ?_, ?_, ?_⟩
  · rw [hfst]
    exact nodup_dedupFirst _
  · intro fac hfac
    have hm : fac.name ∈ (debts_by_faculty s).1.map (fun e => e.faculty) := by
      rw [hfst]
      exact mem_dedupFirst.mpr (List.mem_map_of_mem (fun f => f.name) hfac)
    obtain ⟨e, he, hee⟩ := List.mem_map.mp hm
    exact ⟨e, he, hee⟩
  · intro e he
    have he2 : e ∈ (dedupFirst (s.faculties.map (fun f => f.name))).map
        (fun n => ({ faculty := n, debt_count := facultyTupleCount s n } : FacultyReportEntry)) := he
    obtain ⟨n, _, rfl⟩ := List.mem_map.mp he2
    simpa using facultyTupleCount_eq s hWF n

/-- Claim C3, witness: the amended characterization instantiated at the
concrete store `storeSettled`. -/
theorem debts_by_faculty_characterization_witness :
    StoreWF storeSettled ∧
    ((debts_by_faculty storeSettled).1.map (fun e => e.faculty)
        = dedupFirst (storeSettled.faculties.map (fun f => f.name)) ∧
    ((debts_by_faculty storeSettled).1.map (fun e => e.faculty)).Nodup ∧
    (∀ fac ∈ storeSettled.faculties, ∃ e ∈ (debts_by_faculty storeSettled).1,
        e.faculty = fac.name) ∧
    (∀ e ∈ (debts_by_faculty storeSettled).1,
      e.debt_count = storeSettled.debts.countP
        (fun d => decide (studentFacultyName? storeSettled d.student_id = some e.faculty)))) :=
  ⟨by decide, debts_by_faculty_characterization storeSettled (by decide)⟩

/-- Claim C4: when an identifier matches no row of the target table,
Get, Update and Delete all answer 404 with the entity's detail message
and return the store unchanged, for all five entity kinds. -/
theorem notfound_contract (s : Store) (fid gid subid stid did : Nat)
    (pf : FacultyCreate) (pg : GroupCreate) (psub : SubjectCreate)
    (pst : StudentCreate) (pd : DebtCreate)
    (hf : ∀ r ∈ s.faculties, r.id ≠ fid) (hg : ∀ r ∈ s.groups, r.id ≠ gid)
    (hsub : ∀ r ∈ s.subjects, r.id ≠ subid) (hst : ∀ r ∈ s.students, r.id ≠ stid)
    (hd : ∀ r ∈ s.debts, r.id ≠ did) :
    read_faculty s fid = (.error (.notFound "Faculty not found"), s) ∧
    update_faculty s fid pf = (.error (.notFound "Faculty not found"), s) ∧
    delete_faculty s fid = (.error (.notFound "Faculty not found"), s) ∧
    read_group s gid = (.error (.notFound "Group not found"), s) ∧
    update_group s gid pg = (.error (.notFound "Group not found"), s) ∧
    delete_group s gid = (.error (.notFound "Group not found"), s) ∧
    read_subject s subid = (.error (.notFound "Subject not found"), s) ∧
    update_subject s subid psub = (.error (.notFound "Subject not found"), s) ∧
    delete_subject s subid = (.error (.notFound "Subject not found"), s) ∧
    read_student s stid = (.error (.notFound "Student not found"), s) ∧
    update_student s stid pst = (.error (.notFound "Student not found"), s) ∧
    delete_student s stid = (.error (.notFound "Student not found"), s) ∧
    read_debt s did = (.error (.notFound "Debt not found"), s) ∧
    update_debt s did pd = (.error (.notFound "Debt not found"), s) ∧
    delete_debt s did = (.error (.notFound "Debt not found"), s) := by
  have h1 : s.faculties.find? (fun r => decide (r.id = fid)) = none := find?_key_none hf
  have h2 : s.groups.find? (fun r => decide (r.id = gid)) = none := find?_key_none hg
  have h3 : s.subjects.find? (fun r => decide (r.id = subid)) = none := find?_key_none hsub
  have h4 : s.students.find? (fun r => decide (r.id = stid)) = none := find?_key_none hst
  have h5 : s.debts.find? (fun r => decide (r.id = did)) = none := find?_key_none hd
  refine ⟨?_, ?_, ?_, ?_, ?_, ?_, ?_, ?_, ?_, ?_, ?_, ?_, ?_, ?_, ?_⟩
  · unfold read_faculty; rw [h1]
  · unfold update_faculty; rw [h1]
  · unfold delete_faculty; rw [h1]
  · unfold read_group; rw [h2]
  · unfold update_group; rw [h2]
  · unfold delete_group; rw [h2]
  · unfold read_subject; rw [h3]
  · unfold update_subject; rw [h3]
  · unfold delete_subject; rw [h3]
  · unfold read_student; rw [h4]
  · unfold update_student; rw [h4]
  · unfold delete_student; rw [h4]
  · unfold read_debt; rw [h5]
  · unfold update_debt; rw [h5]
  · unfold delete_debt; rw [h5]

/-- Claim C4, witness: the not-found contract instantiated at the
concrete store `storeSeed` with the unused identifier 99. -/
theorem notfound_contract_witness :
    ((∀ r ∈ storeSeed.faculties, r.id ≠ 99) ∧ (∀ r ∈ storeSeed.groups, r.id ≠ 99) ∧
     (∀ r ∈ storeSeed.subjects, r.id ≠ 99) ∧ (∀ r ∈ storeSeed.students, r.id ≠ 99) ∧
     (∀ r ∈ storeSeed.debts, r.id ≠ 99)) ∧
    (read_faculty storeSeed 99 = (.error (.notFound "Faculty not found"), storeSeed) ∧
     update_faculty storeSeed 99 { name := "X" }
        = (.error (.notFound "Faculty not found"), storeSeed) ∧
     delete_faculty storeSeed 99 = (.error (.notFound "Faculty not found"), storeSeed) ∧
     read_group storeSeed 99 = (.error (.notFound "Group not found"), storeSeed) ∧
     update_group storeSeed 99 { name := "X", faculty_id := none }
        = (.error (.notFound "Group not found"), storeSeed) ∧
     delete_group storeSeed 99 = (.error (.notFound "Group not found"), storeSeed) ∧
     read_subject storeSeed 99 = (.error (.notFound "Subject not found"), storeSeed) ∧
     update_subject storeSeed 99 { name := "X", group_id := none }
        = (.error (.notFound "Subject not found"), storeSeed) ∧
     delete_subject storeSeed 99 = (.error (.notFound "Subject not found"), storeSeed) ∧
     read_student storeSeed 99 = (.error (.notFound "Student not found"), storeSeed) ∧
     update_student storeSeed 99
        { first_name := "A", last_name := "B", patronymic := none,
          record_book_number := "r", phone := none, email := none, group_id := none,
          date_of_birth := none }
        = (.error (.notFound "Student not found"), storeSeed) ∧
     delete_student storeSeed 99 = (.error (.notFound "Student not found"), storeSeed) ∧
     read_debt storeSeed 99 = (.error (.notFound "Debt not found"), storeSeed) ∧
     update_debt storeSeed 99
        { student_id := 1, subject_id := 1, reason := none, date_occurred := none,
          status := some "active" }
        = (.error (.notFound "Debt not found"), storeSeed) ∧
     delete_debt storeSeed 99 = (.error (.notFound "Debt not found"), storeSeed)) :=
  ⟨⟨by decide, by decide, by decide, by decide, by decide⟩,
   notfound_contract storeSeed 99 99 99 99 99 { name := "X" }
     { name := "X", faculty_id := none } { name := "X", group_id := none }
     { first_name := "A", last_name := "B", patronymic := none,
       record_book_number := "r", phone := none, email := none, group_id := none,
       date_of_birth := none }
     { student_id := 1, subject_id := 1, reason := none, date_occurred := none,
       status := some "active" }
     (by decide) (by decide) (by decide) (by decide) (by decide)⟩

/-- Claim C1: for every entity kind and valid payload, Create assigns
the table's next id, persists the row, returns it, and Get at that id
returns exactly the same row, every payload field included. -/
theorem create_get_roundtrip (s : Store)
    (pf : FacultyCreate) (pg : GroupCreate) (psub : SubjectCreate)
    (pst : StudentCreate) (pd : DebtCreate)
    (hWF : StoreWF s)
    (hpg : fkFacultyOk s pg.faculty_id = true)
    (hpsub : fkGroupOk s psub.group_id = true)
    (hpst : fkGroupOk s pst.group_id = true)
    (hpd1 : fkStudentOk s pd.student_id = true)
    (hpd2 : fkSubjectOk s pd.subject_id = true)
    (stv : String) (hpd3 : pd.status = some stv) :
    (∃ r s2, create_faculty s pf = (.ok r, s2) ∧ read_faculty s2 r.id = (.ok r, s2) ∧
      r.name = pf.name) ∧
    (∃ r s2, create_group s pg = (.ok r, s2) ∧ read_group s2 r.id = (.ok r, s2) ∧
      r.name = pg.name ∧ r.faculty_id = pg.faculty_id) ∧
    (∃ r s2, create_subject s psub = (.ok r, s2) ∧ read_subject s2 r.id = (.ok r, s2) ∧
      r.name = psub.name ∧ r.group_id = psub.group_id) ∧
    (∃ r s2, create_student s pst = (.ok r, s2) ∧ read_student s2 r.id = (.ok r, s2) ∧
      r.first_name = pst.first_name ∧ r.last_name = pst.last_name ∧
      r.patronymic = pst.patronymic ∧ r.record_book_number = pst.record_book_number ∧
      r.phone = pst.phone ∧ r.email = pst.email ∧ r.group_id = pst.group_id ∧
      r.date_of_birth = pst.date_of_birth) ∧
    (∃ r s2, create_debt s pd = (.ok r, s2) ∧ read_debt s2 r.id = (.ok r, s2) ∧
      r.student_id = pd.student_id ∧ r.subject_id = pd.subject_id ∧ r.reason = pd.reason ∧
      r.date_occurred = pd.date_occurred ∧ pd.status = some r.status) := by
  obtain ⟨_, _, _, _, _, hbF, hbG, hbSub, hbSt, hbD⟩ := hWF
  refine ⟨?_, ?_, ?_, ?_, ?_⟩
  · refine ⟨{ id := s.nextFacultyId, name := pf.name }, _, rfl, ?_, rfl⟩
    exact read_faculty_found _ _ _
      (find?_append_fresh s.faculties (fun r => r.id) s.nextFacultyId _ hbF rfl)
  · refine ⟨{ id := s.nextGroupId, name := pg.name, faculty_id := pg.faculty_id }, _,
      by unfold create_group; rw [hpg]; rfl, ?_, rfl, rfl⟩
    exact read_group_found _ _ _
      (find?_append_fresh s.groups (fun r => r.id) s.nextGroupId _ hbG rfl)
  · refine ⟨{ id := s.nextSubjectId, name := psub.name, group_id := psub.group_id }, _,
      by unfold create_subject; rw [hpsub]; rfl, ?_, rfl, rfl⟩
    exact read_subject_found _ _ _
      (find?_append_fresh s.subjects (fun r => r.id) s.nextSubjectId _ hbSub rfl)
  · refine ⟨{ id := s.nextStudentId
              first_name := pst.first_name
              last_name := pst.last_name
              patronymic := pst.patronymic
              record_book_number := pst.record_book_number
              phone := pst.phone
              email := pst.email
              group_id := pst.group_id
              date_of_birth := pst.date_of_birth }, _,
      by unfold create_student; rw [hpst]; rfl, ?_, rfl, rfl, rfl, rfl, rfl, rfl, rfl, rfl⟩
    exact read_student_found _ _ _
      (find?_append_fresh s.students (fun r => r.id) s.nextStudentId _ hbSt rfl)
  · refine ⟨{ id := s.nextDebtId
              student_id := pd.student_id
              subject_id := pd.subject_id
              reason := pd.reason
              date_occurred := pd.date_occurred
              status := stv }, _,
      by unfold create_debt; rw [hpd3, hpd1, hpd2]; rfl, ?_, rfl, rfl, rfl, rfl, hpd3⟩
    exact read_debt_found _ _ _
      (find?_append_fresh s.debts (fun r => r.id) s.nextDebtId _ hbD rfl)

/-- Claim C1, witness: the round-trip instantiated at the concrete
store `storeSeed` with one concrete payload per entity kind. -/
theorem create_get_roundtrip_witness :
    (StoreWF storeSeed ∧
     fkFacultyOk storeSeed (some 1) = true ∧
     fkGroupOk storeSeed (some 1) = true ∧
     fkStudentOk storeSeed 1 = true ∧
     fkSubjectOk storeSeed 1 = true) ∧
    ((∃ r s2, create_faculty storeSeed { name := "NewF" } = (.ok r, s2) ∧
        read_faculty s2 r.id = (.ok r, s2) ∧ r.name = "NewF") ∧
     (∃ r s2, create_group storeSeed { name := "NewG", faculty_id := some 1 }
          = (.ok r, s2) ∧
        read_group s2 r.id = (.ok r, s2) ∧ r.name = "NewG" ∧ r.faculty_id = some 1) ∧
     (∃ r s2, create_subject storeSeed { name := "NewS", group_id := some 1 }
          = (.ok r, s2) ∧
        read_subject s2 r.id = (.ok r, s2) ∧ r.name = "NewS" ∧ r.group_id = some 1) ∧
     (∃ r s2, create_student storeSeed
          { first_name := "Anna", last_name := "Orlova", patronymic := none,
            record_book_number := "rb2", phone := none, email := none,
            group_id := some 1, date_of_birth := none } = (.ok r, s2) ∧
        read_student s2 r.id = (.ok r, s2) ∧ r.first_name = "Anna" ∧
        r.last_name = "Orlova" ∧ r.patronymic = none ∧ r.record_book_number = "rb2" ∧
        r.phone = none ∧ r.email = none ∧ r.group_id = some 1 ∧
        r.date_of_birth = none) ∧
     (∃ r s2, create_debt storeSeed
          { student_id := 1, subject_id := 1, reason := some "late",
            date_occurred := some 10, status := some "active" } = (.ok r, s2) ∧
        read_debt s2 r.id = (.ok r, s2) ∧ r.student_id = 1 ∧ r.subject_id = 1 ∧
        r.reason = some "late" ∧ r.date_occurred = some 10 ∧
        (some "active" : Option String) = some r.status)) :=
  ⟨⟨by decide, by decide, by decide, by decide, by decide⟩,
   create_get_roundtrip storeSeed { name := "NewF" }
     { name := "NewG", faculty_id := some 1 } { name := "NewS", group_id := some 1 }
     { first_name := "Anna", last_name := "Orlova", patronymic := none,
       record_book_number := "rb2", phone := none, email := none,
       group_id := some 1, date_of_birth := none }
     { student_id := 1, subject_id := 1, reason := some "late",
       date_occurred := some 10, status := some "active" }
     (by decide) (by decide) (by decide) (by decide) (by decide) (by decide)
     "active" rfl⟩

/-- Claim C5: for every entity kind, updating an existing row with a
valid payload overwrites every mutable field with the payload's value
(full replacement), keeps the identifier, returns the updated entity,
and the stored row afterwards is exactly the payload plus that id. -/
theorem update_full_replacement (s : Store) (fid gid subid stid did : Nat)
    (pf : FacultyCreate) (pg : GroupCreate) (psub : SubjectCreate)
    (pst : StudentCreate) (pd : DebtCreate)
    (f : FacultyRow) (g : GroupRow) (sub : SubjectRow) (st : StudentRow) (d : DebtRow)
    (hf : s.faculties.find? (fun r => decide (r.id = fid)) = some f)
    (hg : s.groups.find? (fun r => decide (r.id = gid)) = some g)
    (hsub : s.subjects.find? (fun r => decide (r.id = subid)) = some sub)
    (hst : s.students.find? (fun r => decide (r.id = stid)) = some st)
    (hd : s.debts.find? (fun r => decide (r.id = did)) = some d)
    (hpg : fkFacultyOk s pg.faculty_id = true)
    (hpsub : fkGroupOk s psub.group_id = true)
    (hpst : fkGroupOk s pst.group_id = true)
    (hpd1 : fkStudentOk s pd.student_id = true)
    (hpd2 : fkSubjectOk s pd.subject_id = true)
    (stv : String) (hpd3 : pd.status = some stv) :
    (∃ s2, update_faculty s fid pf = (.ok { id := fid, name := pf.name }, s2) ∧
      s2.faculties.find? (fun r => decide (r.id = fid))
        = some { id := fid, name := pf.name }) ∧
    (∃ s2, update_group s gid pg
        = (.ok { id := gid, name := pg.name, faculty_id := pg.faculty_id }, s2) ∧
      s2.groups.find? (fun r => decide (r.id = gid))
        = some { id := gid, name := pg.name, faculty_id := pg.faculty_id }) ∧
    (∃ s2, update_subject s subid psub
        = (.ok { id := subid, name := psub.name, group_id := psub.group_id }, s2) ∧
      s2.subjects.find? (fun r => decide (r.id = subid))
        = some { id := subid, name := psub.name, group_id := psub.group_id }) ∧
    (∃ s2, update_student s stid pst
        = (.ok { id := stid
                 first_name := pst.first_name
                 last_name := pst.last_name
                 patronymic := pst.patronymic
                 record_book_number := pst.record_book_number
                 phone := pst.phone
                 email := pst.email
                 group_id := pst.group_id
                 date_of_birth := pst.date_of_birth }, s2) ∧
      s2.students.find? (fun r => decide (r.id = stid))
        = some { id := stid
                 first_name := pst.first_name
                 last_name := pst.last_name
                 patronymic := pst.patronymic
                 record_book_number := pst.record_book_number
                 phone := pst.phone
                 email := pst.email
                 group_id := pst.group_id
                 date_of_birth := pst.date_of_birth }) ∧
    (∃ s2, update_debt s did pd
        = (.ok { id := did
                 student_id := pd.student_id
                 subject_id := pd.subject_id
                 reason := pd.reason
                 date_occurred := pd.date_occurred
                 status := stv }, s2) ∧
      s2.debts.find? (fun r => decide (r.id = did))
        = some { id := did
                 student_id := pd.student_id
                 subject_id := pd.subject_id
                 reason := pd.reason
                 date_occurred := pd.date_occurred
                 status := stv }) := by
  have hfid : f.id = fid := by simpa using List.find?_some hf
  have hgid : g.id = gid := by simpa using List.find?_some hg
  have hsubid : sub.id = subid := by simpa using List.find?_some hsub
  have hstid : st.id = stid := by simpa using List.find?_some hst
  have hdid : d.id = did := by simpa using List.find?_some hd
  have hfrow : ({ f with name := pf.name } : FacultyRow) = { id := fid, name := pf.name } := by
    rw [← hfid]
  have hgrow : ({ g with name := pg.name, faculty_id := pg.faculty_id } : GroupRow)
      = { id := gid, name := pg.name, faculty_id := pg.faculty_id } := by
    rw [← hgid]
  have hsubrow : ({ sub with name := psub.name, group_id := psub.group_id } : SubjectRow)
      = { id := subid, name := psub.name, group_id := psub.group_id } := by
    rw [← hsubid]
  have hstrow : ({ st with
        first_name := pst.first_name
        last_name := pst.last_name
        patronymic := pst.patronymic
        record_book_number := pst.record_book_number
        phone := pst.phone
        email := pst.email
        group_id := pst.group_id
        date_of_birth := pst.date_of_birth } : StudentRow)
      = { id := stid
          first_name := pst.first_name
          last_name := pst.last_name
          patronymic := pst.patronymic
          record_book_number := pst.record_book_number
          phone := pst.phone
          email := pst.email
          group_id := pst.group_id
          date_of_birth := pst.date_of_birth } := by
    rw [← hstid]
  have hdrow : ({ d with
        student_id := pd.student_id
        subject_id := pd.subject_id
        reason := pd.reason
        date_occurred := pd.date_occurred
        status := stv } : DebtRow)
      = { id := did
          student_id := pd.student_id
          subject_id := pd.subject_id
          reason := pd.reason
          date_occurred := pd.date_occurred
          status := stv } := by
    rw [← hdid]
  refine ⟨?_, ?_, ?_, ?_, ?_⟩
  · refine ⟨{ s with faculties := s.faculties.map (fun r => if r.id = fid then { id := fid, name := pf.name } else r) }, ?_, ?_⟩
    · unfold update_faculty
      rw [hf]
      simp only [hfrow]
    · exact find?_map_modify (fun r => r.id) fid
        (fun _ => ({ id := fid, name := pf.name } : FacultyRow)) (fun r _ => rfl) hf
  · refine ⟨{ s with groups := s.groups.map (fun r => if r.id = gid then { id := gid, name := pg.name, faculty_id := pg.faculty_id } else r) }, ?_, ?_⟩
    · unfold update_group
      rw [hg, hpg]
      simp only [hgrow]
      rfl
    · exact find?_map_modify (fun r => r.id) gid
        (fun _ => ({ id := gid, name := pg.name, faculty_id := pg.faculty_id } : GroupRow))
        (fun r _ => rfl) hg
  · refine ⟨{ s with subjects := s.subjects.map (fun r => if r.id = subid then { id := subid, name := psub.name, group_id := psub.group_id } else r) }, ?_, ?_⟩
    · unfold update_subject
      rw [hsub, hpsub]
      simp only [hsubrow]
      rfl
    · exact find?_map_modify (fun r => r.id) subid
        (fun _ => ({ id := subid, name := psub.name, group_id := psub.group_id } : SubjectRow))
        (fun r _ => rfl) hsub
  · refine ⟨{ s with students := s.students.map (fun r => if r.id = stid then { id := stid, first_name := pst.first_name, last_name := pst.last_name, patronymic := pst.patronymic, record_book_number := pst.record_book_number, phone := pst.phone, email := pst.email, group_id := pst.group_id, date_of_birth := pst.date_of_birth } else r) }, ?_, ?_⟩
    · unfold update_student
      rw [hst, hpst]
      simp only [hstrow]
      rfl
    · exact find?_map_modify (fun r => r.id) stid
        (fun _ => ({ id := stid
                     first_name := pst.first_name
                     last_name := pst.last_name
                     patronymic := pst.patronymic
                     record_book_number := pst.record_book_number
                     phone := pst.phone
                     email := pst.email
                     group_id := pst.group_id
                     date_of_birth := pst.date_of_birth } : StudentRow))
        (fun r _ => rfl) hst
  · refine ⟨{ s with debts := s.debts.map (fun r => if r.id = did then { id := did, student_id := pd.student_id, subject_id := pd.subject_id, reason := pd.reason, date_occurred := pd.date_occurred, status := stv } else r) }, ?_, ?_⟩
    · unfold update_debt
      rw [hd, hpd3, hpd1, hpd2]
      simp only [hdrow]
      rfl
    · exact find?_map_modify (fun r => r.id) did
        (fun _ => ({ id := did
                     student_id := pd.student_id
                     subject_id := pd.subject_id
                     reason := pd.reason
                     date_occurred := pd.date_occurred
                     status := stv } : DebtRow))
        (fun r _ => rfl) hd

/-- Claim C5, witness: full replacement instantiated at `storeSeed`,
updating each entity with id 1 with a fresh payload. -/
theorem update_full_replacement_witness :
    (storeSeed.faculties.find? (fun r => decide (r.id = 1)) = some { id := 1, name := "F" } ∧
     storeSeed.groups.find? (fun r => decide (r.id = 1))
        = some { id := 1, name := "G", faculty_id := some 1 } ∧
     storeSeed.subjects.find? (fun r => decide (r.id = 1))
        = some { id := 1, name := "S", group_id := some 1 } ∧
     storeSeed.students.find? (fun r => decide (r.id = 1))
        = some { id := 1, first_name := "Ivan", last_name := "Petrov", patronymic := none,
                 record_book_number := "rb1", phone := none, email := none,
                 group_id := some 1, date_of_birth := none } ∧
     storeSeed.debts.find? (fun r => decide (r.id = 1))
        = some { id := 1, student_id := 1, subject_id := 1, reason := none,
                 date_occurred := none, status := "active" } ∧
     fkFacultyOk storeSeed none = true ∧ fkGroupOk storeSeed none = true ∧
     fkStudentOk storeSeed 1 = true ∧ fkSubjectOk storeSeed 1 = true) ∧
    ((∃ s2, update_faculty storeSeed 1 { name := "F2" }
        = (.ok { id := 1, name := "F2" }, s2) ∧
      s2.faculties.find? (fun r => decide (r.id = 1)) = some { id := 1, name := "F2" }) ∧
     (∃ s2, update_group storeSeed 1 { name := "G2", faculty_id := none }
        = (.ok { id := 1, name := "G2", faculty_id := none }, s2) ∧
      s2.groups.find? (fun r => decide (r.id = 1))
        = some { id := 1, name := "G2", faculty_id := none }) ∧
     (∃ s2, update_subject storeSeed 1 { name := "S2", group_id := none }
        = (.ok { id := 1, name := "S2", group_id := none }, s2) ∧
      s2.subjects.find? (fun r => decide (r.id = 1))
        = some { id := 1, name := "S2", group_id := none }) ∧
     (∃ s2, update_student storeSeed 1
          { first_name := "P", last_name := "Q", patronymic := none,
            record_book_number := "rb9", phone := none, email := none, group_id := none,
            date_of_birth := none }
        = (.ok { id := 1, first_name := "P", last_name := "Q", patronymic := none,
                 record_book_number := "rb9", phone := none, email := none,
                 group_id := none, date_of_birth := none }, s2) ∧
      s2.students.find? (fun r => decide (r.id = 1))
        = some { id := 1, first_name := "P", last_name := "Q", patronymic := none,
                 record_book_number := "rb9", phone := none, email := none,
                 group_id := none, date_of_birth := none }) ∧
     (∃ s2, update_debt storeSeed 1
          { student_id := 1, subject_id := 1, reason := some "r", date_occurred := some 5,
            status := some "settled" }
        = (.ok { id := 1, student_id := 1, subject_id := 1, reason := some "r",
                 date_occurred := some 5, status := "settled" }, s2) ∧
      s2.debts.find? (fun r => decide (r.id = 1))
        = some { id := 1, student_id := 1, subject_id := 1, reason := some "r",
                 date_occurred := some 5, status := "settled" })) :=
  ⟨⟨by decide, by decide, by decide, by decide, by decide, by decide, by decide,
    by decide, by decide⟩,
   update_full_replacement storeSeed 1 1 1 1 1 { name := "F2" }
     { name := "G2", faculty_id := none } { name := "S2", group_id := none }
     { first_name := "P", last_name := "Q", patronymic := none,
       record_book_number := "rb9", phone := none, email := none, group_id := none,
       date_of_birth := none }
     { student_id := 1, subject_id := 1, reason := some "r", date_occurred := some 5,
       status := some "settled" }
     { id := 1, name := "F" } { id := 1, name := "G", faculty_id := some 1 }
     { id := 1, name := "S", group_id := some 1 }
     { id := 1, first_name := "Ivan", last_name := "Petrov", patronymic := none,
       record_book_number := "rb1", phone := none, email := none, group_id := some 1,
       date_of_birth := none }
     { id := 1, student_id := 1, subject_id := 1, reason := none, date_occurred := none,
       status := "active" }
     (by decide) (by decide) (by decide) (by decide) (by decide) (by decide) (by decide)
     (by decide) (by decide) (by decide) "settled" rfl⟩

/-- Claim C6: creating a debt from a request body whose status field is
omitted stores and returns a debt with status "active" (the pydantic
field default). -/
theorem debt_status_default_active (s : Store) (sid subid : Nat)
    (reason : Option String) (dt : Option EDate)
    (h1 : fkStudentOk s sid = true) (h2 : fkSubjectOk s subid = true) :
    ∃ r s2, create_debt s (parseDebtCreate sid subid reason dt none) = (.ok r, s2) ∧
      r.status = "active" ∧ r ∈ s2.debts := by
  refine ⟨{ id := s.nextDebtId, student_id := sid, subject_id := subid, reason := reason, date_occurred := dt, status := "active" },
    { s with debts := s.debts ++ [{ id := s.nextDebtId, student_id := sid, subject_id := subid, reason := reason, date_occurred := dt, status := "active" }], nextDebtId := s.nextDebtId + 1 },
    ?_, rfl, ?_⟩
  · unfold create_debt parseDebtCreate
    rw [show (((none : Option (Option String))).getD (some "active")) = some "active" from rfl]
    rw [h1, h2]
    rfl
  · simp

/-- Claim C6, witness: omitted status instantiated at `storeSeed`. -/
theorem debt_status_default_active_witness :
    (fkStudentOk storeSeed 1 = true ∧ fkSubjectOk storeSeed 1 = true) ∧
    (∃ r s2, create_debt storeSeed (parseDebtCreate 1 1 none none none) = (.ok r, s2) ∧
      r.status = "active" ∧ r ∈ s2.debts) :=
  ⟨⟨by decide, by decide⟩,
   debt_status_default_active storeSeed 1 1 none none (by decide) (by decide)⟩

/-- When the debt exists, settling marks it settled and rewrites only
the debts table. -/
theorem settle_debt_found (s : Store) (did : Nat) (d : DebtRow)
    (h : s.debts.find? (fun r => decide (r.id = did)) = some d) :
    settle_debt s did = (.ok "Debt marked as settled",
      { s with debts := s.debts.map (fun r => if r.id = did then { r with status := "settled" } else r) }) := by
  unfold settle_debt
  rw [h]

/-- Claim C7: settling an existing debt reports success, changes that
debt's status to "settled" while keeping its other fields and id, and
leaves every other row of every table (and every id sequence)
untouched. -/
theorem settle_frame (s : Store) (did : Nat) (d : DebtRow)
    (hd : s.debts.find? (fun r => decide (r.id = did)) = some d) :
    ∃ s2, settle_debt s did = (.ok "Debt marked as settled", s2) ∧
      s2.faculties = s.faculties ∧ s2.groups = s.groups ∧ s2.subjects = s.subjects ∧
      s2.students = s.students ∧ s2.nextFacultyId = s.nextFacultyId ∧
      s2.nextGroupId = s.nextGroupId ∧ s2.nextSubjectId = s.nextSubjectId ∧
      s2.nextStudentId = s.nextStudentId ∧ s2.nextDebtId = s.nextDebtId ∧
      s2.debts.find? (fun r => decide (r.id = did)) = some { d with status := "settled" } ∧
      (∀ r ∈ s.debts, r.id ≠ did → r ∈ s2.debts) ∧
      (∀ r ∈ s2.debts, r.id ≠ did → r ∈ s.debts) := by
  refine ⟨{ s with debts := s.debts.map (fun r => if r.id = did then { r with status := "settled" } else r) },
    settle_debt_found s did d hd, rfl, rfl, rfl, rfl, rfl, rfl, rfl, rfl, rfl, ?_, ?_, ?_⟩
  · exact find?_map_modify (fun (r : DebtRow) => r.id) did
      (fun (r : DebtRow) => { r with status := "settled" }) (fun r h => h) hd
  · intro r hr hneq
    exact List.mem_map.mpr ⟨r, hr, if_neg hneq⟩
  · intro r hr hneq
    obtain ⟨r0, hr0, heq⟩ := List.mem_map.mp hr
    by_cases h0 : r0.id = did
    · rw [if_pos h0] at heq
      exact absurd (by rw [← heq]; exact h0) hneq
    · rw [if_neg h0] at heq
      rw [← heq]
      exact hr0

/-- Claim C7, witness: the settle frame property instantiated at
`storeSeed` and its single debt. -/
theorem settle_frame_witness :
    storeSeed.debts.find? (fun r => decide (r.id = 1))
        = some { id := 1, student_id := 1, subject_id := 1, reason := none,
                 date_occurred := none, status := "active" } ∧
    (∃ s2, settle_debt storeSeed 1 = (.ok "Debt marked as settled", s2) ∧
      s2.faculties = storeSeed.faculties ∧ s2.groups = storeSeed.groups ∧
      s2.subjects = storeSeed.subjects ∧ s2.students = storeSeed.students ∧
      s2.nextFacultyId = storeSeed.nextFacultyId ∧ s2.nextGroupId = storeSeed.nextGroupId ∧
      s2.nextSubjectId = storeSeed.nextSubjectId ∧
      s2.nextStudentId = storeSeed.nextStudentId ∧ s2.nextDebtId = storeSeed.nextDebtId ∧
      s2.debts.find? (fun r => decide (r.id = 1))
        = some { id := 1, student_id := 1, subject_id := 1, reason := none,
                 date_occurred := none, status := "settled" } ∧
      (∀ r ∈ storeSeed.debts, r.id ≠ 1 → r ∈ s2.debts) ∧
      (∀ r ∈ s2.debts, r.id ≠ 1 → r ∈ storeSeed.debts)) :=
  ⟨by decide,
   settle_frame storeSeed 1
     { id := 1, student_id := 1, subject_id := 1, reason := none, date_occurred := none,
       status := "active" } (by decide)⟩

/-- Claim C9: settling a debt twice succeeds both times and the second
call returns exactly the message and store of the first — settle is
idempotent and never rejects an already-settled debt. -/
theorem settle_idempotent (s : Store) (did : Nat) (m : String) (s1 : Store)
    (h : settle_debt s did = (.ok m, s1)) :
    settle_debt s1 did = (.ok m, s1) := by
  unfold settle_debt at h
  cases hfind : s.debts.find? (fun r => decide (r.id = did)) with
  | none =>
    rw [hfind] at h
    simp at h
  | some d =>
    rw [hfind] at h
    have hm : m = "Debt marked as settled" := by
      have := congrArg Prod.fst h
      simpa using this.symm
    have hs1 : s1 = { s with debts := s.debts.map (fun r => if r.id = did then { r with status := "settled" } else r) } := by
      have := congrArg Prod.snd h
      simpa using this.symm
    subst hm
    subst hs1
    have hfind2 : ({ s with debts := s.debts.map (fun r => if r.id = did then { r with status := "settled" } else r) } : Store).debts.find? (fun r => decide (r.id = did)) = some { d with status := "settled" } :=
      find?_map_modify (fun (r : DebtRow) => r.id) did
        (fun (r : DebtRow) => { r with status := "settled" }) (fun r hh => hh) hfind
    rw [settle_debt_found _ did _ hfind2]
    have hmapmap : (s.debts.map (fun r => if r.id = did then { r with status := "settled" } else r)).map (fun r => if r.id = did then { r with status := "settled" } else r) = s.debts.map (fun r => if r.id = did then { r with status := "settled" } else r) := by
      rw [List.map_map]
      apply List.map_congr_left
      intro r _
      by_cases h0 : r.id = did
      · simp [Function.comp, h0]
      · simp [Function.comp, h0]
    show (Except.ok "Debt marked as settled", ({ s with debts := (s.debts.map (fun r => if r.id = did then { r with status := "settled" } else r)).map (fun r => if r.id = did then { r with status := "settled" } else r) } : Store)) = (Except.ok "Debt marked as settled", ({ s with debts := s.debts.map (fun r => if r.id = did then { r with status := "settled" } else r) } : Store))
    rw [hmapmap]

/-- Claim C9, witness: the idempotence instantiated at `storeSeed` and
its single debt. -/
theorem settle_idempotent_witness :
    settle_debt storeSeed 1 = (.ok "Debt marked as settled", { storeSeed with debts := [{ id := 1, student_id := 1, subject_id := 1, reason := none, date_occurred := none, status := "settled" }] }) ∧
    settle_debt { storeSeed with debts := [{ id := 1, student_id := 1, subject_id := 1, reason := none, date_occurred := none, status := "settled" }] } 1
      = (.ok "Debt marked as settled", { storeSeed with debts := [{ id := 1, student_id := 1, subject_id := 1, reason := none, date_occurred := none, status := "settled" }] }) :=
  ⟨rfl, settle_idempotent storeSeed 1 "Debt marked as settled"
    { storeSeed with debts := [{ id := 1, student_id := 1, subject_id := 1, reason := none, date_occurred := none, status := "settled" }] } rfl⟩

/-- Claim C10: the per-identifier reports never answer 404: when no
student is in the given group the debts-by-group report is an empty
list, and when the given student id matches no student (in a store with
foreign-key integrity) the student-debts report is an empty list; both
leave the store unchanged. -/
theorem reports_empty_for_unknown_ids (s : Store) (gid sid : Nat)
    (hg : ∀ st ∈ s.students, st.group_id ≠ some gid)
    (hfk : ∀ d ∈ s.debts, ∃ st ∈ s.students, st.id = d.student_id)
    (hs : ∀ st ∈ s.students, st.id ≠ sid) :
    debts_by_group s gid = ([], s) ∧ student_debts s sid = ([], s) := by
  constructor
  · have hfil : s.students.filter (fun st => decide (st.group_id = some gid)) = [] :=
      List.filter_eq_nil_iff.mpr (fun st hst => by simpa using hg st hst)
    unfold debts_by_group
    simp only [hfil]
    rfl
  · have hnd : ∀ d ∈ s.debts, d.student_id ≠ sid := by
      intro d hd hc
      obtain ⟨st, hst, hstid⟩ := hfk d hd
      exact hs st hst (by rw [hstid, hc])
    have hall : s.subjects.flatMap (fun sub =>
        (s.debts.filter (fun d => decide (d.subject_id = sub.id) && decide (d.student_id = sid))).map
          (fun d => ({ subject := sub.name, reason := d.reason, date_occurred := d.date_occurred, status := d.status } : StudentDebtEntry))) = [] := by
      refine List.flatMap_eq_nil_iff.mpr (fun sub _ => ?_)
      have : s.debts.filter
          (fun d => decide (d.subject_id = sub.id) && decide (d.student_id = sid)) = [] :=
        List.filter_eq_nil_iff.mpr (fun d hd => by simp [hnd d hd])
      rw [this]
      rfl
    unfold student_debts
    rw [hall]

/-- Claim C10, witness: the empty-report behavior instantiated at
`storeSeed` with the unused identifier 99. -/
theorem reports_empty_for_unknown_ids_witness :
    ((∀ st ∈ storeSeed.students, st.group_id ≠ some 99) ∧
     (∀ d ∈ storeSeed.debts, ∃ st ∈ storeSeed.students, st.id = d.student_id) ∧
     (∀ st ∈ storeSeed.students, st.id ≠ 99)) ∧
    (debts_by_group storeSeed 99 = ([], storeSeed) ∧
     student_debts storeSeed 99 = ([], storeSeed)) :=
  ⟨⟨by decide, by decide, by decide⟩,
   reports_empty_for_unknown_ids storeSeed 99 99 (by decide) (by decide) (by decide)⟩
